import Mathlib

/-!
Verification development for the lending-club data-processing pipeline.

The pipeline operates on in-memory tables (pandas DataFrames).  We embed a
table as a header of column names together with a list of rows; a cell is
either missing (na), a string, or a number (modelled as a rational).  Each
pipeline step of processing.py is translated into a Lean function on this
model; steps that can raise (a missing required column, an unparseable
numeric string, a string accessor on a numeric column) return Except.
-/

set_option allowUnsafeReducibility true in
attribute [semireducible] Rat.add Rat.mul Rat.inv Rat.sub

namespace LendingClub

/-- Lexicographic comparison of strings as character lists (Python string
order on code points), kept structurally recursive so that concrete tables
evaluate inside proofs. -/
def charListLe : List Char → List Char → Bool
  | [], _ => true
  | _ :: _, [] => false
  | a :: as, b :: bs => if a = b then charListLe as bs else decide (a < b)

/-- String order used for sorting category values. -/
def strLe (a b : String) : Bool := charListLe a.toList b.toList

/-- One cell of a table: missing (NaN), a string, or a number. -/
inductive Cell where
  | na : Cell
  | str : String → Cell
  | num : ℚ → Cell
deriving DecidableEq, Repr

/-- A table: named columns and a list of rows (row-major). -/
structure DF where
  header : List String
  rows : List (List Cell)
deriving DecidableEq, Repr

/-- Well-formed table: every row has exactly one cell per column. -/
def DF.WF (df : DF) : Prop := ∀ r ∈ df.rows, r.length = df.header.length

instance (df : DF) : Decidable df.WF := by
  unfold DF.WF
  infer_instance

/-- Cell of a row at a column position (missing when out of range). -/
def cellAt (r : List Cell) (i : Nat) : Cell := (r[i]?).getD Cell.na

/-- Data of the column at a given position. -/
def colAt (df : DF) (i : Nat) : List Cell := df.rows.map (fun r => cellAt r i)

/-- Position of the first column with the given name. -/
def colIdx (df : DF) (name : String) : Option Nat :=
  df.header.findIdx? (fun h => h = name)

/-- Data of the named column, when present. -/
def getCol (df : DF) (name : String) : Option (List Cell) :=
  (colIdx df name).map (colAt df)

/-- Cell of the named column in a given row of the table. -/
def cellOf (df : DF) (name : String) (i : Nat) : Option Cell :=
  (getCol df name).bind (fun d => d[i]?)

/-- Keep exactly the column positions satisfying the predicate. -/
def selectCols (df : DF) (keep : Nat → Bool) : DF :=
  let is := (List.range df.header.length).filter keep
  { header := is.map (fun i => df.header.getD i ""),
    rows := df.rows.map (fun r => is.map (fun i => cellAt r i)) }

/-- The columns of a table as (name, data) pairs, in header order. -/
def columnsOf (df : DF) : List (String × List Cell) :=
  (List.range df.header.length).map (fun i => (df.header.getD i "", colAt df i))

/-- Number of non-missing cells of a column. -/
def countNonNA (data : List Cell) : Nat := data.countP (fun c => c ≠ Cell.na)

/-- Number of distinct non-missing values of a column (pandas nunique). -/
def nunique (data : List Cell) : Nat :=
  ((data.filter (fun c => c ≠ Cell.na)).dedup).length

/-- Step 1, filter_loan_status: keep the rows whose loan_status is one of
"Fully Paid", "Charged Off" (loans[loans[loan_status].isin([...])]).
Raises when the loan_status column is absent. -/
def filter_loan_status (loans : DF) : Except String DF :=
  match colIdx loans "loan_status" with
  | none => .error "KeyError: loan_status"
  | some i => .ok
      { header := loans.header,
        rows := loans.rows.filter (fun r =>
          decide (cellAt r i = Cell.str "Fully Paid" ∨ cellAt r i = Cell.str "Charged Off")) }

/-- Step 2, filter_missing_data: loans.dropna(thresh=int(len(loans)/2),
axis=columns) keeps the columns having at least floor(rowcount/2)
non-missing values. -/
def filter_missing_data (loans : DF) : DF :=
  selectCols loans (fun i => loans.rows.length / 2 ≤ countNonNA (colAt loans i))

/-- Step 3, filter_non_unique_values: loans.loc[:, loans.nunique() != 1]
keeps the columns whose number of distinct non-missing values is not 1. -/
def filter_non_unique_values (loans : DF) : DF :=
  selectCols loans (fun i => nunique (colAt loans i) ≠ 1)

/-- The hardcoded drop list of remove_unnecessary_columns, in source order
(total_rec_late_fee is listed twice in the source). -/
def unnecessary_columns : List String :=
  ["id", "collection_recovery_fee", "total_rec_late_fee", "debt_settlement_flag",
   "url", "desc", "total_pymnt", "total_pymnt_inv", "recoveries", "zip_code",
   "sub_grade", "emp_title", "int_rate", "last_fico_range_high", "last_fico_range_low",
   "issue_d", "total_rec_prncp", "total_rec_int", "total_rec_late_fee",
   "last_pymnt_d", "last_pymnt_amnt", "funded_amnt", "funded_amnt_inv",
   "pub_rec_bankruptcies", "pub_rec", "delinq_2yrs", "earliest_cr_line",
   "last_credit_pull_d", "addr_state", "title"]

/-- DataFrame.drop(columns=cols): removes every column carrying one of the
given labels; raises a KeyError when one of the labels is absent. -/
def dropColumns (loans : DF) (cols : List String) : Except String DF :=
  if cols.all (fun c => loans.header.contains c) then
    .ok (selectCols loans (fun i => loans.header.getD i "" ∉ cols))
  else .error "KeyError: drop labels not found in axis"

/-- Step 4, remove_unnecessary_columns: drop the fixed list. -/
def remove_unnecessary_columns (loans : DF) : Except String DF :=
  dropColumns loans unnecessary_columns

/-- The lookup tables of MAPPING; keys are cells so that the np.nan key of
emp_length_map is the missing cell. -/
structure Mapping where
  emp_length_map : List (Cell × ℚ)
  grade_map : List (Cell × ℚ)
  loan_status_map : List (Cell × ℚ)

/-- The MAPPING constant of processing.py. -/
def MAPPING : Mapping :=
  { grade_map :=
      [(Cell.str "A", 1), (Cell.str "B", 2), (Cell.str "C", 3), (Cell.str "D", 4),
       (Cell.str "E", 5), (Cell.str "F", 6), (Cell.str "G", 7)],
    loan_status_map := [(Cell.str "Fully Paid", 0), (Cell.str "Charged Off", 1)],
    emp_length_map :=
      [(Cell.str "10+ years", 10), (Cell.str "9 years", 9), (Cell.str "8 years", 8),
       (Cell.str "7 years", 7), (Cell.str "6 years", 6), (Cell.str "5 years", 5),
       (Cell.str "4 years", 4), (Cell.str "3 years", 3), (Cell.str "2 years", 2),
       (Cell.str "1 year", 1), (Cell.str "< 1 year", 0), (Cell.na, 0)] }

/-- Association-list lookup with cell keys. -/
def lookupCell (c : Cell) : List (Cell × ℚ) → Option ℚ
  | [] => none
  | (k, v) :: rest => if c = k then some v else lookupCell c rest

/-- Series.map(dict): a value found in the table maps to its image, any
other value (including missing, unless missing is a key) maps to missing. -/
def mapCellVia (m : List (Cell × ℚ)) (c : Cell) : Cell :=
  match lookupCell c m with
  | some q => Cell.num q
  | none => Cell.na

/-- Series assignment df.assign(name=vals): replaces the named column in
place when present, otherwise appends it on the right. -/
def assignCol (df : DF) (name : String) (vals : List Cell) : DF :=
  match colIdx df name with
  | some i => { header := df.header, rows := df.rows.zipWith (fun r v => r.set i v) vals }
  | none => { header := df.header ++ [name], rows := df.rows.zipWith (fun r v => r ++ [v]) vals }

/-- Step 5, map_categorical: map grade, emp_length and loan_status through
the lookup tables (raises when one of the three columns is absent). -/
def map_categorical (loans : DF) (mapping : Mapping) : Except String DF :=
  match getCol loans "grade", getCol loans "emp_length", getCol loans "loan_status" with
  | some g, some e, some l =>
      .ok (assignCol
            (assignCol
              (assignCol loans "grade" (g.map (mapCellVia mapping.grade_map)))
              "emp_length" (e.map (mapCellVia mapping.emp_length_map)))
            "loan_status" (l.map (mapCellVia mapping.loan_status_map)))
  | _, _, _ => .error "KeyError: mapped column missing"

/-- Python str.strip(chars): remove any of the given characters from both
ends of the string. -/
def stripChars (chars : List Char) (s : String) : String :=
  let l := s.toList.dropWhile (fun c => chars.contains c)
  String.mk ((l.reverse.dropWhile (fun c => chars.contains c)).reverse)

/-- Series.str applied with a string operation: on an object column every
string cell is transformed and every other cell becomes missing; on a
column without any string (a numeric dtype) the .str accessor raises. -/
def strColMap (f : String → String) (data : List Cell) : Except String (List Cell) :=
  if data.isEmpty ∨ data.any (fun c => match c with | Cell.str _ => true | _ => false) then
    .ok (data.map (fun c => match c with | Cell.str s => Cell.str (f s) | _ => Cell.na))
  else .error "AttributeError: Can only use .str accessor with string values"

/-- Value of a list of decimal digit characters. -/
def digitsVal (cs : List Char) : Nat := cs.foldl (fun a c => 10 * a + (c.toNat - 48)) 0

/-- Parse a decimal literal (optional sign, digits, optional fraction) into
a rational, as float conversion in pd.to_numeric does; none on failure. -/
def parseRat (s : String) : Option ℚ :=
  let cs := s.toList
  let signAndRest : ℚ × List Char :=
    match cs with
    | '-' :: rest => (-1, rest)
    | '+' :: rest => (1, rest)
    | _ => (1, cs)
  let sign := signAndRest.1
  let body := signAndRest.2
  let intPart := body.takeWhile (fun c => c.isDigit)
  let rest := body.dropWhile (fun c => c.isDigit)
  match rest with
  | [] =>
    if intPart.isEmpty then none
    else some (sign * (digitsVal intPart : ℚ))
  | '.' :: frac =>
    if frac.all (fun c => c.isDigit) ∧ ¬(intPart.isEmpty ∧ frac.isEmpty) then
      some (sign * ((digitsVal intPart : ℚ) + (digitsVal frac : ℚ) / (10 : ℚ) ^ frac.length))
    else none
  | _ => none

/-- pd.to_numeric on a column: numbers pass through, missing stays missing,
strings are parsed, an unparseable string raises. -/
def toNumericCol (data : List Cell) : Except String (List Cell) :=
  data.mapM (fun c =>
    match c with
    | Cell.na => .ok Cell.na
    | Cell.num q => .ok (Cell.num q)
    | Cell.str s =>
      match parseRat s with
      | some q => .ok (Cell.num q)
      | none => .error ("ValueError: Unable to parse string " ++ s))

/-- Series.replace("NONE", "OTHER") on a column. -/
def replaceNone (data : List Cell) : List Cell :=
  data.map (fun c => if c = Cell.str "NONE" then Cell.str "OTHER" else c)

/-- Row mean of the two fico range cells, skipping missing values, as
loans[[fico_range_low, fico_range_high]].mean(axis=columns). -/
def meanCell (a b : Cell) : Cell :=
  match a, b with
  | Cell.num x, Cell.num y => Cell.num ((x + y) / 2)
  | Cell.num x, Cell.na => Cell.num x
  | Cell.na, Cell.num y => Cell.num y
  | _, _ => Cell.na

/-- Whether a cell is a string. -/
def isStrCell (c : Cell) : Bool :=
  match c with | Cell.str _ => true | _ => false

/-- Step 6, apply_transformations: strip "months" from term, strip the
percent sign from revol_util and convert it to a number, replace the NONE
home-ownership label by OTHER, append the fico average, and drop the two
fico range columns.  DataFrame.mean raises on string cells. -/
def apply_transformations (loans : DF) : Except String DF := do
  match getCol loans "term", getCol loans "revol_util", getCol loans "home_ownership",
        getCol loans "fico_range_low", getCol loans "fico_range_high" with
  | some term, some ru, some ho, some flo, some fhi =>
    let termV ← strColMap (stripChars "months".toList) term
    let ruS ← strColMap (stripChars ['%']) ru
    let ruV ← toNumericCol ruS
    if (flo ++ fhi).any isStrCell then
      .error "TypeError: could not compute mean of string values"
    else
      let ficoV := flo.zipWith meanCell fhi
      let df1 := assignCol loans "term" termV
      let df2 := assignCol df1 "revol_util" ruV
      let df3 := assignCol df2 "home_ownership" (replaceNone ho)
      let df4 := assignCol df3 "fico_avg" ficoV
      dropColumns df4 ["fico_range_low", "fico_range_high"]
  | _, _, _, _, _ => .error "KeyError: transformation column missing"

/-- Numeric dtype test for a column: no string cell (an all-missing column
is a float column in pandas and counts as numeric). -/
def isNumericCol (data : List Cell) : Bool := data.all (fun c => !isStrCell c)

/-- The numeric values of a column, missing cells skipped. -/
def numData (data : List Cell) : List ℚ :=
  data.filterMap (fun c => match c with | Cell.num q => some q | _ => none)

/-- A column's values sorted ascending. -/
def srt (l : List ℚ) : List ℚ := List.insertionSort (fun a b => a ≤ b) l

/-- Index into a sorted column, clamped to the last element. -/
def nthClamp (xs : List ℚ) (i : Nat) : ℚ := xs.getD (min i (xs.length - 1)) 0

/-- Linear interpolation at a fractional position of a sorted column, as
numpy does for percentiles. -/
def interp (xs : List ℚ) (h : ℚ) : ℚ :=
  nthClamp xs ((Int.floor h).toNat) +
    (h - (((Int.floor h).toNat : Nat) : ℚ)) *
      (nthClamp xs ((Int.floor h).toNat + 1) - nthClamp xs ((Int.floor h).toNat))

/-- Series.quantile(p) with linear interpolation over the non-missing
values; none when there is no data (pandas returns NaN then). -/
def quantile (l : List ℚ) (p : ℚ) : Option ℚ :=
  if (srt l).length = 0 then none
  else some (interp (srt l) (p * (((srt l).length - 1 : Nat) : ℚ)))

/-- Series.clip(lower, upper): a missing bound clips nothing on that side
(the lower bound is applied first, then the upper bound). -/
def applyClip (b : Option ℚ × Option ℚ) (x : ℚ) : ℚ :=
  let x1 := match b.1 with | some lo => max x lo | none => x
  match b.2 with | some hi => min x1 hi | none => x1

/-- Clip a number cell to the given bounds; other cells are untouched. -/
def clipCell (b : Option ℚ × Option ℚ) (c : Cell) : Cell :=
  match c with
  | Cell.num q => Cell.num (applyClip b q)
  | other => other

/-- The (5th, 95th) percentile bounds of every column: computed for the
numeric-dtype columns, absent for the others. -/
def outlierBounds (df : DF) : List (Option ℚ × Option ℚ) :=
  (List.range df.header.length).map (fun i =>
    let d := colAt df i
    if isNumericCol d then (quantile (numData d) (1 / 20), quantile (numData d) (19 / 20))
    else (none, none))

/-- Clip one row against the per-column bounds. -/
def clipRow : List (Option ℚ × Option ℚ) → List Cell → List Cell
  | _, [] => []
  | [], r => r
  | b :: bs, c :: cs => clipCell b c :: clipRow bs cs

/-- Step 7, handle_outliers: clip every numeric column to its own 5th-95th
percentile range, each column's bounds computed on its own current data. -/
def handle_outliers (loans : DF) : DF :=
  { header := loans.header, rows := loans.rows.map (clipRow (outlierBounds loans)) }

/-- Sorted distinct string categories of a column (pd.get_dummies sorts
the category values; missing cells yield no category). -/
def catsOf (data : List Cell) : List String :=
  List.insertionSort (fun a b => strLe a b)
    ((data.filterMap (fun c => match c with | Cell.str s => some s | _ => none)).dedup)

/-- Indicator cells of one source cell against a category list. -/
def dummyRowVals (cats : List String) (c : Cell) : List Cell :=
  cats.map (fun v => if c = Cell.str v then Cell.num 1 else Cell.num 0)

/-- The fixed list of one-hot encoded columns of create_dummies. -/
def dummy_columns : List String :=
  ["home_ownership", "verification_status", "purpose", "term"]

/-- Step 8, create_dummies: append the one-hot indicator columns of the
four categorical columns, drop those four columns, then drop every row
still containing a missing value.  Raises when one of the four columns is
absent (loans[columns]). -/
def create_dummies (loans : DF) : Except String DF :=
  match dummy_columns.mapM (fun c => colIdx loans c) with
  | none => .error "KeyError: dummy column missing"
  | some idxs =>
    let cats := idxs.map (fun i => catsOf (colAt loans i))
    let header1 := loans.header ++
      (dummy_columns.zip cats).flatMap (fun p => p.2.map (fun v => p.1 ++ "_" ++ v))
    let rows1 := loans.rows.map (fun r =>
      r ++ (idxs.zip cats).flatMap (fun p => dummyRowVals p.2 (cellAt r p.1)))
    let df1 : DF := { header := header1, rows := rows1 }
    let df2 := selectCols df1 (fun i => df1.header.getD i "" ∉ dummy_columns)
    .ok { header := df2.header, rows := df2.rows.filter (fun r => decide (Cell.na ∉ r)) }

/-- Python upper-casing of an ASCII character. -/
def pyToUpper (c : Char) : Char :=
  if 'a' ≤ c ∧ c ≤ 'z' then Char.ofNat (c.toNat - 32) else c

/-- Column renaming of to_upper: col.replace(" ", "").upper(). -/
def pyUpperNoSpace (s : String) : String :=
  String.mk ((s.toList.filter (fun c => c ≠ ' ')).map pyToUpper)

/-- Step 9, to_upper: uppercase every column name and remove spaces. -/
def to_upper (loans : DF) : DF :=
  { header := loans.header.map pyUpperNoSpace, rows := loans.rows }

/-- execute_processing: the whole cleaning pipeline, steps 1 to 9 in
order, errors propagating to the caller. -/
def execute_processing (loans : DF) : Except String DF := do
  let a ← filter_loan_status loans
  let b := filter_missing_data a
  let c := filter_non_unique_values b
  let d ← remove_unnecessary_columns c
  let e ← map_categorical d MAPPING
  let f ← apply_transformations e
  let g := handle_outliers f
  let h ← create_dummies g
  return to_upper h

/-!
Mutation model.  Python passes the DataFrame by reference; we model the
heap of live tables as a store (a list of tables) and a table argument as
an index into it.  A step that builds a new frame (slicing, assign, drop,
dropna, concat) appends its result and leaves the caller's entry alone; a
step that writes into its argument (handle_outliers assigns columns with
loans[feature] = ..., to_upper assigns loans.columns) overwrites the
caller's entry and returns the same reference.
-/

/-- The heap of live tables. -/
abbrev Store := List DF

/-- Call a step that builds and returns a fresh table. -/
def callPure (f : DF → Except String DF) (r : Nat) (σ : Store) :
    Except String (Nat × Store) :=
  match (σ : List DF)[r]? with
  | none => .error "invalid reference"
  | some df => (f df).map (fun out => (List.length σ, σ ++ ([out] : List DF)))

/-- Call a step that writes its result into the table it was given. -/
def callInPlace (f : DF → DF) (r : Nat) (σ : Store) : Except String (Nat × Store) :=
  match (σ : List DF)[r]? with
  | none => .error "invalid reference"
  | some df => .ok (r, List.set σ r (f df))

def filter_loan_status_call : Nat → Store → Except String (Nat × Store) :=
  callPure filter_loan_status

def filter_missing_data_call : Nat → Store → Except String (Nat × Store) :=
  callPure (fun df => .ok (filter_missing_data df))

def filter_non_unique_values_call : Nat → Store → Except String (Nat × Store) :=
  callPure (fun df => .ok (filter_non_unique_values df))

def remove_unnecessary_columns_call : Nat → Store → Except String (Nat × Store) :=
  callPure remove_unnecessary_columns

def map_categorical_call : Nat → Store → Except String (Nat × Store) :=
  callPure (fun df => map_categorical df MAPPING)

def apply_transformations_call : Nat → Store → Except String (Nat × Store) :=
  callPure apply_transformations

def create_dummies_call : Nat → Store → Except String (Nat × Store) :=
  callPure create_dummies

def handle_outliers_call : Nat → Store → Except String (Nat × Store) :=
  callInPlace handle_outliers

def to_upper_call : Nat → Store → Except String (Nat × Store) :=
  callInPlace to_upper

/-!
Concrete end-to-end scenario.  Three rows, all surviving every filter: the
first row is the row of the specification's end-to-end scenario, the other
two keep every column non-constant, put the first row's value at the median
of every numeric column (so the 5th-95th percentile clip leaves it alone)
and provide the other home-ownership, verification, purpose and term
categories.  The table carries every column of the hardcoded drop list
(with pairwise distinct values) so that the drop succeeds.
-/

/-- The distinct names of the drop list. -/
def dropNames : List String := unnecessary_columns.dedup

/-- The end-to-end scenario input table. -/
def C1df : DF :=
  { header := ["loan_status", "grade", "emp_length", "home_ownership", "term", "revol_util",
               "fico_range_low", "fico_range_high", "verification_status", "purpose"] ++ dropNames,
    rows :=
      [[Cell.str "Fully Paid", Cell.str "B", Cell.str "5 years", Cell.str "NONE",
        Cell.str " 36 months", Cell.str "45.2%", Cell.num 700, Cell.num 704,
        Cell.str "Verified", Cell.str "credit_card"] ++ dropNames.map (fun _ => Cell.num 1),
       [Cell.str "Fully Paid", Cell.str "A", Cell.str "4 years", Cell.str "RENT",
        Cell.str " 60 months", Cell.str "30.5%", Cell.num 690, Cell.num 694,
        Cell.str "Not Verified", Cell.str "car"] ++ dropNames.map (fun _ => Cell.num 2),
       [Cell.str "Charged Off", Cell.str "C", Cell.str "6 years", Cell.str "MORTGAGE",
        Cell.str " 36 months", Cell.str "60.1%", Cell.num 710, Cell.num 714,
        Cell.str "Source Verified", Cell.str "house"] ++ dropNames.map (fun _ => Cell.num 3)] }

/-- The pipeline's output on the scenario table: note the clipped values of
the non-median rows (grade 1 becomes 1.1, loan status 1 becomes 0.9, and so
on) and the term one-hot columns TERM_36 and TERM_60. -/
def C1out : DF :=
  { header := ["LOAN_STATUS", "GRADE", "EMP_LENGTH", "REVOL_UTIL", "FICO_AVG",
               "HOME_OWNERSHIP_MORTGAGE", "HOME_OWNERSHIP_OTHER", "HOME_OWNERSHIP_RENT",
               "VERIFICATION_STATUS_NOTVERIFIED", "VERIFICATION_STATUS_SOURCEVERIFIED",
               "VERIFICATION_STATUS_VERIFIED", "PURPOSE_CAR", "PURPOSE_CREDIT_CARD",
               "PURPOSE_HOUSE", "TERM_36", "TERM_60"],
    rows :=
      [[Cell.num 0, Cell.num 2, Cell.num 5, Cell.num (226 / 5), Cell.num 702,
        Cell.num 0, Cell.num 1, Cell.num 0, Cell.num 0, Cell.num 0, Cell.num 1,
        Cell.num 0, Cell.num 1, Cell.num 0, Cell.num 1, Cell.num 0],
       [Cell.num 0, Cell.num (11 / 10), Cell.num (41 / 10), Cell.num (3197 / 100), Cell.num 693,
        Cell.num 0, Cell.num 0, Cell.num 1, Cell.num 1, Cell.num 0, Cell.num 0,
        Cell.num 1, Cell.num 0, Cell.num 0, Cell.num 0, Cell.num 1],
       [Cell.num (9 / 10), Cell.num (29 / 10), Cell.num (59 / 10), Cell.num (5861 / 100), Cell.num 711,
        Cell.num 1, Cell.num 0, Cell.num 0, Cell.num 0, Cell.num 1, Cell.num 0,
        Cell.num 0, Cell.num 0, Cell.num 1, Cell.num 1, Cell.num 0]] }

/-- A column is constant when all its cells (missing included) agree. -/
def constantCol (data : List Cell) : Prop := ∀ x ∈ data, ∀ y ∈ data, x = y

instance (data : List Cell) : Decidable (constantCol data) := by
  unfold constantCol
  infer_instance

/-- Three-row table whose column a has a single non-missing value out of
three (count 1 is not below the threshold floor(3/2) = 1, yet the
non-missing fraction 1/3 is below one half). -/
def C3df : DF :=
  { header := ["a", "b"],
    rows := [[Cell.num 1, Cell.num 1], [Cell.na, Cell.num 2], [Cell.na, Cell.num 3]] }

/-- Table whose column a is non-constant with one distinct non-missing
value and whose column b is constant all-missing. -/
def C7df : DF :=
  { header := ["a", "b"],
    rows := [[Cell.num 5, Cell.na], [Cell.na, Cell.na], [Cell.num 5, Cell.na]] }

/-- Missing a drop label: a table with only an id column. -/
def C8df : DF := { header := ["id"], rows := [] }

/-- The scenario table after remove_unnecessary_columns (applied to it
directly): only the ten non-listed columns survive. -/
def C1step4 : DF :=
  { header := ["loan_status", "grade", "emp_length", "home_ownership", "term", "revol_util",
               "fico_range_low", "fico_range_high", "verification_status", "purpose"],
    rows :=
      [[Cell.str "Fully Paid", Cell.str "B", Cell.str "5 years", Cell.str "NONE",
        Cell.str " 36 months", Cell.str "45.2%", Cell.num 700, Cell.num 704,
        Cell.str "Verified", Cell.str "credit_card"],
       [Cell.str "Fully Paid", Cell.str "A", Cell.str "4 years", Cell.str "RENT",
        Cell.str " 60 months", Cell.str "30.5%", Cell.num 690, Cell.num 694,
        Cell.str "Not Verified", Cell.str "car"],
       [Cell.str "Charged Off", Cell.str "C", Cell.str "6 years", Cell.str "MORTGAGE",
        Cell.str " 36 months", Cell.str "60.1%", Cell.num 710, Cell.num 714,
        Cell.str "Source Verified", Cell.str "house"]] }

/-- Two-row status table, one row filtered away. -/
def Tstatus : DF :=
  { header := ["loan_status"], rows := [[Cell.str "Fully Paid"], [Cell.str "Current"]] }

/-- The status table after filter_loan_status. -/
def TstatusOut : DF := { header := ["loan_status"], rows := [[Cell.str "Fully Paid"]] }

/-- Small table for map_categorical: one unmapped grade value and one
all-missing row. -/
def C5df : DF :=
  { header := ["grade", "emp_length", "loan_status"],
    rows := [[Cell.str "B", Cell.str "Z", Cell.str "Fully Paid"], [Cell.na, Cell.na, Cell.na]] }

/-- map_categorical on C5df: B maps to 2, the unmapped Z and the missing
grade and status become missing, the missing employment length becomes 0. -/
def C5out : DF :=
  { header := ["grade", "emp_length", "loan_status"],
    rows := [[Cell.num 2, Cell.na, Cell.num 0], [Cell.na, Cell.num 0, Cell.na]] }

/-- Small table for apply_transformations. -/
def Ttrans : DF :=
  { header := ["term", "revol_util", "home_ownership", "fico_range_low", "fico_range_high"],
    rows := [[Cell.str " 36 months", Cell.str "45.2%", Cell.str "NONE", Cell.num 700, Cell.num 704]] }

/-- apply_transformations on Ttrans. -/
def TtransOut : DF :=
  { header := ["term", "revol_util", "home_ownership", "fico_avg"],
    rows := [[Cell.str " 36 ", Cell.num (226 / 5), Cell.str "OTHER", Cell.num 702]] }

/-- Small table for create_dummies. -/
def Tdum : DF :=
  { header := ["x", "home_ownership", "verification_status", "purpose", "term"],
    rows := [[Cell.num 1, Cell.str "RENT", Cell.str "Verified", Cell.str "car", Cell.str " 36 "]] }

/-- create_dummies on Tdum. -/
def TdumOut : DF :=
  { header := ["x", "home_ownership_RENT", "verification_status_Verified", "purpose_car",
               "term_ 36 "],
    rows := [[Cell.num 1, Cell.num 1, Cell.num 1, Cell.num 1, Cell.num 1]] }

/-- One numeric column for handle_outliers: quantiles 1 and 91. -/
def C4df : DF := { header := ["x"], rows := [[Cell.num 0], [Cell.num 10], [Cell.num 100]] }

/-- The clipped version of C4df. -/
def C4clip : DF := { header := ["x"], rows := [[Cell.num 1], [Cell.num 10], [Cell.num 91]] }

/-- One-column lowercase-named table for the to_upper mutation example. -/
def C6df : DF := { header := ["a"], rows := [[Cell.num 1]] }

/-- C6df after to_upper. -/
def C6up : DF := { header := ["A"], rows := [[Cell.num 1]] }

/-- C7df after filter_non_unique_values. -/
def C7out : DF := { header := ["b"], rows := [[Cell.na], [Cell.na], [Cell.na]] }

/-- Evaluation of the whole pipeline on the scenario table. -/
theorem exec_C1df : execute_processing C1df = Except.ok C1out := by rfl

/-- C1: the claim expects the output row to carry TERM=36 as a numeric
value; on the scenario input (whose first row is exactly the claim's row,
surviving all filters) the output table has no TERM column at all, because
create_dummies one-hot encodes term into TERM_36 and TERM_60 and drops the
original column, which apply_transformations never converted to a number. -/
theorem c1_counterexample :
    cellOf C1df "loan_status" 0 = some (Cell.str "Fully Paid") ∧
    cellOf C1df "grade" 0 = some (Cell.str "B") ∧
    cellOf C1df "emp_length" 0 = some (Cell.str "5 years") ∧
    cellOf C1df "term" 0 = some (Cell.str " 36 months") ∧
    cellOf C1df "revol_util" 0 = some (Cell.str "45.2%") ∧
    cellOf C1df "fico_range_low" 0 = some (Cell.num 700) ∧
    cellOf C1df "fico_range_high" 0 = some (Cell.num 704) ∧
    cellOf C1df "home_ownership" 0 = some (Cell.str "NONE") ∧
    execute_processing C1df = Except.ok C1out ∧
    getCol C1out "TERM" = none ∧ getCol C1out "term" = none :=
  ⟨rfl, rfl, rfl, rfl, rfl, rfl, rfl, rfl, exec_C1df, rfl, rfl⟩

/-- C1 amended: on an input containing the scenario row (all filters
surviving), the output row has LOAN_STATUS=0, GRADE=2, EMP_LENGTH=5,
REVOL_UTIL=45.2, FICO_AVG=702, HOME_OWNERSHIP_OTHER=1 with the other
home-ownership indicators 0, no FICO_RANGE_LOW or FICO_RANGE_HIGH column,
and the term is one-hot encoded (TERM_36=1, TERM_60=0) with no numeric
TERM column. -/
theorem c1_amended_scenario :
    execute_processing C1df = Except.ok C1out ∧
    cellOf C1out "LOAN_STATUS" 0 = some (Cell.num 0) ∧
    cellOf C1out "GRADE" 0 = some (Cell.num 2) ∧
    cellOf C1out "EMP_LENGTH" 0 = some (Cell.num 5) ∧
    cellOf C1out "REVOL_UTIL" 0 = some (Cell.num (226 / 5)) ∧
    cellOf C1out "FICO_AVG" 0 = some (Cell.num 702) ∧
    cellOf C1out "HOME_OWNERSHIP_OTHER" 0 = some (Cell.num 1) ∧
    cellOf C1out "HOME_OWNERSHIP_MORTGAGE" 0 = some (Cell.num 0) ∧
    cellOf C1out "HOME_OWNERSHIP_RENT" 0 = some (Cell.num 0) ∧
    cellOf C1out "TERM_36" 0 = some (Cell.num 1) ∧
    cellOf C1out "TERM_60" 0 = some (Cell.num 0) ∧
    getCol C1out "TERM" = none ∧
    getCol C1out "FICO_RANGE_LOW" = none ∧
    getCol C1out "FICO_RANGE_HIGH" = none ∧
    getCol C1out "fico_range_low" = none ∧
    getCol C1out "fico_range_high" = none :=
  ⟨exec_C1df, rfl, rfl, rfl, rfl, rfl, rfl, rfl, rfl, rfl, rfl, rfl, rfl, rfl, rfl, rfl⟩

/-! General lemmas about the table model. -/

theorem toNat_ofNat_valid (n : Nat) (h : n.isValidChar) : (Char.ofNat n).toNat = n := by
  rw [Char.ofNat, dif_pos h]
  rfl

theorem charLe_iff_toNat (a b : Char) : a ≤ b ↔ a.toNat ≤ b.toNat := Iff.rfl

theorem lower_toNat (c : Char) (h : 'a' ≤ c ∧ c ≤ 'z') : 97 ≤ c.toNat ∧ c.toNat ≤ 122 := by
  obtain ⟨h1, h2⟩ := h
  rw [charLe_iff_toNat] at h1 h2
  exact ⟨h1, h2⟩

theorem pyToUpper_not_lower (c : Char) : ¬('a' ≤ pyToUpper c ∧ pyToUpper c ≤ 'z') := by
  unfold pyToUpper
  split
  · rename_i h
    obtain ⟨hn1, hn2⟩ := lower_toNat c h
    have hv : (c.toNat - 32).isValidChar := Or.inl (by omega)
    intro hcon
    obtain ⟨k1, _⟩ := hcon
    rw [charLe_iff_toNat, toNat_ofNat_valid _ hv] at k1
    have : ('a').toNat = 97 := rfl
    omega
  · rename_i h
    exact h

theorem pyToUpper_ne_space (c : Char) (hc : c ≠ ' ') : pyToUpper c ≠ ' ' := by
  unfold pyToUpper
  split
  · rename_i h
    obtain ⟨hn1, hn2⟩ := lower_toNat c h
    have hv : (c.toNat - 32).isValidChar := Or.inl (by omega)
    intro hcon
    have he : (Char.ofNat (c.toNat - 32)).toNat = (' ' : Char).toNat := by rw [hcon]
    rw [toNat_ofNat_valid _ hv] at he
    have : (' ').toNat = 32 := rfl
    omega
  · exact hc

theorem pyUpperNoSpace_not_lower (s : String) (ch : Char)
    (hm : ch ∈ (pyUpperNoSpace s).toList) : ¬('a' ≤ ch ∧ ch ≤ 'z') := by
  unfold pyUpperNoSpace at hm
  have hm' : ch ∈ ((s.toList.filter (fun c => c ≠ ' ')).map pyToUpper) := hm
  obtain ⟨c, _, rfl⟩ := List.mem_map.mp hm'
  exact pyToUpper_not_lower c

theorem pyUpperNoSpace_no_space (s : String) : ' ' ∉ (pyUpperNoSpace s).toList := by
  intro hm
  have hm' : ' ' ∈ ((s.toList.filter (fun c => c ≠ ' ')).map pyToUpper) := hm
  obtain ⟨c, hc, he⟩ := List.mem_map.mp hm'
  have hcne : c ≠ ' ' := by
    have := (List.mem_filter.mp hc).2
    exact of_decide_eq_true this
  exact pyToUpper_ne_space c hcne he

theorem columnsOf_selectCols (df : DF) (p : Nat → Bool) :
    columnsOf (selectCols df p) =
      ((List.range df.header.length).filter p).map
        (fun i => (df.header.getD i "", colAt df i)) := by
  unfold columnsOf selectCols colAt cellAt
  apply List.ext_getElem
  · simp
  · intro j h1 h2
    simp only [List.getElem_map, List.getElem_range, List.length_map, List.length_range] at h1 h2 ⊢
    congr 1
    · rw [List.getD_eq_getElem?_getD, List.getElem?_map, List.getElem?_eq_getElem h2]
      rfl
    · rw [List.map_map]
      apply List.map_congr_left
      intro r _
      simp only [Function.comp_apply]
      rw [List.getElem?_map, List.getElem?_eq_getElem h2]
      rfl

/-- The missing-data filter keeps exactly the columns whose non-missing
count reaches floor(rowcount/2). -/
theorem columnsOf_filter_missing (df : DF) :
    columnsOf (filter_missing_data df) =
      (columnsOf df).filter (fun col => df.rows.length / 2 ≤ countNonNA col.2) := by
  rw [filter_missing_data, columnsOf_selectCols, columnsOf, List.filter_map]
  rfl

/-- The non-unique filter keeps exactly the columns whose number of
distinct non-missing values is not 1. -/
theorem columnsOf_filter_non_unique (df : DF) :
    columnsOf (filter_non_unique_values df) =
      (columnsOf df).filter (fun col => nunique col.2 ≠ 1) := by
  rw [filter_non_unique_values, columnsOf_selectCols, columnsOf, List.filter_map]
  rfl

/-- C3 amended: filter_missing_data drops exactly the columns whose
non-missing count is below floor(rowcount/2), so every surviving column
has non-missing count at least floor(rowcount/2) (the non-missing
fraction may still be below one half, see the counterexample). -/
theorem c3_amended (df : DF) (c : String × List Cell)
    (hc : c ∈ columnsOf (filter_missing_data df)) :
    columnsOf (filter_missing_data df) =
      (columnsOf df).filter (fun col => df.rows.length / 2 ≤ countNonNA col.2) ∧
    df.rows.length / 2 ≤ countNonNA c.2 := by
  refine ⟨columnsOf_filter_missing df, ?_⟩
  rw [columnsOf_filter_missing df] at hc
  exact of_decide_eq_true (List.mem_filter.mp hc).2

/-- C3 witness at the concrete three-row table. -/
theorem c3_witness :
    columnsOf (filter_missing_data C3df) =
      (columnsOf C3df).filter (fun col => C3df.rows.length / 2 ≤ countNonNA col.2) ∧
    C3df.rows.length / 2 ≤ countNonNA ("b", [Cell.num 1, Cell.num 2, Cell.num 3]).2 :=
  c3_amended C3df ("b", [Cell.num 1, Cell.num 2, Cell.num 3]) (by decide)

/-- C3: a column with 1 non-missing value out of 3 rows survives the
filter (1 is not below floor(3/2) = 1) although its non-missing fraction
1/3 is below one half, refuting the claimed 0.5 bound. -/
theorem c3_counterexample :
    getCol (filter_missing_data C3df) "a" = some [Cell.num 1, Cell.na, Cell.na] ∧
    countNonNA [Cell.num 1, Cell.na, Cell.na] = 1 ∧
    C3df.rows.length = 3 ∧
    ((countNonNA [Cell.num 1, Cell.na, Cell.na] : ℚ) / (C3df.rows.length : ℚ) < 1 / 2) := by
  refine ⟨rfl, rfl, rfl, ?_⟩
  decide

/-- C7 amended: filter_non_unique_values drops exactly the columns having
exactly one distinct non-missing value (missing cells ignored); every
surviving column has zero or at least two distinct non-missing values. -/
theorem c7_amended (df : DF) (c : String × List Cell)
    (hc : c ∈ columnsOf (filter_non_unique_values df)) :
    columnsOf (filter_non_unique_values df) =
      (columnsOf df).filter (fun col => nunique col.2 ≠ 1) ∧
    nunique c.2 ≠ 1 := by
  refine ⟨columnsOf_filter_non_unique df, ?_⟩
  rw [columnsOf_filter_non_unique df] at hc
  exact of_decide_eq_true (List.mem_filter.mp hc).2

/-- C7 witness at the concrete table. -/
theorem c7_witness :
    columnsOf (filter_non_unique_values C7df) =
      (columnsOf C7df).filter (fun col => nunique col.2 ≠ 1) ∧
    nunique ("b", [Cell.na, Cell.na, Cell.na]).2 ≠ 1 :=
  c7_amended C7df ("b", [Cell.na, Cell.na, Cell.na]) (by decide)

/-- C7: the column [5, missing, 5] is not constant yet is dropped (its one
distinct non-missing value gives nunique 1), and the constant all-missing
column is kept (nunique 0); the step does not drop exactly the constant
columns. -/
theorem c7_counterexample :
    getCol C7df "a" = some [Cell.num 5, Cell.na, Cell.num 5] ∧
    ¬constantCol [Cell.num 5, Cell.na, Cell.num 5] ∧
    getCol (filter_non_unique_values C7df) "a" = none ∧
    getCol C7df "b" = some [Cell.na, Cell.na, Cell.na] ∧
    constantCol [Cell.na, Cell.na, Cell.na] ∧
    getCol (filter_non_unique_values C7df) "b" = some [Cell.na, Cell.na, Cell.na] := by
  decide

/-- Inversion of a successful bind of the error monad. -/
theorem exceptBind_ok {α β : Type} {x : Except String α} {f : α → Except String β} {b : β}
    (h : Except.bind x f = Except.ok b) : ∃ a, x = Except.ok a ∧ f a = Except.ok b := by
  cases x with
  | error e => exact absurd h (by simp [Except.bind])
  | ok a => exact ⟨a, rfl, h⟩

/-- A successful pipeline run ends with to_upper applied to a successful
create_dummies output. -/
theorem execute_ok_structure (df out : DF) (h : execute_processing df = Except.ok out) :
    ∃ g h8, create_dummies g = Except.ok h8 ∧ out = to_upper h8 := by
  unfold execute_processing at h
  obtain ⟨a, h1, h⟩ := exceptBind_ok h
  obtain ⟨d, h4, h⟩ := exceptBind_ok h
  obtain ⟨e', h5, h⟩ := exceptBind_ok h
  obtain ⟨f', h6, h⟩ := exceptBind_ok h
  obtain ⟨g, h8, h⟩ := exceptBind_ok h
  refine ⟨handle_outliers f', g, h8, ?_⟩
  have h' : Except.ok (to_upper g) = Except.ok out := h
  exact (Except.ok.injEq _ _ ▸ h').symm

/-- After the closing dropna of create_dummies no row contains a missing
value. -/
theorem create_dummies_ok_no_na (g h8 : DF) (hcd : create_dummies g = Except.ok h8) :
    ∀ r ∈ h8.rows, Cell.na ∉ r := by
  unfold create_dummies at hcd
  split at hcd
  · exact absurd hcd (by simp)
  · simp only [Except.ok.injEq] at hcd
    subst hcd
    intro r hr
    have := (List.mem_filter.mp hr).2
    exact of_decide_eq_true this

/-- C2: every successful run of the pipeline returns a table without any
missing value whose column names contain no lowercase letter and no
space. -/
theorem c2_output_clean (df out : DF) (row : List Cell) (c : Cell) (name : String) (ch : Char)
    (hexec : execute_processing df = Except.ok out)
    (hrow : row ∈ out.rows) (hc : c ∈ row)
    (hname : name ∈ out.header) (hch : ch ∈ name.toList) :
    c ≠ Cell.na ∧ ¬('a' ≤ ch ∧ ch ≤ 'z') ∧ ch ≠ ' ' := by
  obtain ⟨g, h8, hcd, rfl⟩ := execute_ok_structure df out hexec
  have hname' : name ∈ List.map pyUpperNoSpace h8.header := hname
  obtain ⟨s, _, rfl⟩ := List.mem_map.mp hname'
  refine ⟨?_, pyUpperNoSpace_not_lower s ch hch, ?_⟩
  · have hna := create_dummies_ok_no_na g h8 hcd row hrow
    intro hceq
    rw [hceq] at hc
    exact hna hc
  · intro hsp
    rw [hsp] at hch
    exact pyUpperNoSpace_no_space s hch

/-- C2 witness at the scenario table. -/
theorem c2_witness :
    Cell.num 0 ≠ Cell.na ∧ ¬('a' ≤ 'L' ∧ 'L' ≤ 'z') ∧ 'L' ≠ ' ' :=
  c2_output_clean C1df C1out
    [Cell.num 0, Cell.num 2, Cell.num 5, Cell.num (226 / 5), Cell.num 702,
     Cell.num 0, Cell.num 1, Cell.num 0, Cell.num 0, Cell.num 0, Cell.num 1,
     Cell.num 0, Cell.num 1, Cell.num 0, Cell.num 1, Cell.num 0]
    (Cell.num 0) "LOAN_STATUS" 'L' exec_C1df (by decide) (by decide) (by decide) (by decide)

/-- A successful drop keeps exactly the columns whose name is not a drop
label. -/
theorem columnsOf_dropColumns (df out : DF) (cols : List String)
    (h : dropColumns df cols = Except.ok out) :
    columnsOf out = (columnsOf df).filter (fun col => col.1 ∉ cols) := by
  unfold dropColumns at h
  split at h
  · simp only [Except.ok.injEq] at h
    subst h
    rw [columnsOf_selectCols, columnsOf, List.filter_map]
    rfl
  · exact absurd h (by simp)

/-- C8: remove_unnecessary_columns drops exactly the hardcoded list when
all its labels are present, fails with the column-not-found error when one
is absent, and no listed (lowercase) name survives into the final output
of a successful pipeline run. -/
theorem c8_remove_unnecessary (df1 out1 df2 df3 dfe oute : DF) (c missing : String)
    (hok : remove_unnecessary_columns df1 = Except.ok out1)
    (hmiss : missing ∈ unnecessary_columns) (hnotin : missing ∉ df2.header)
    (hall : ∀ x ∈ unnecessary_columns, x ∈ df3.header)
    (hexec : execute_processing dfe = Except.ok oute)
    (hc : c ∈ unnecessary_columns) :
    columnsOf out1 = (columnsOf df1).filter (fun col => col.1 ∉ unnecessary_columns) ∧
    remove_unnecessary_columns df2 = Except.error "KeyError: drop labels not found in axis" ∧
    (remove_unnecessary_columns df3).isOk = true ∧
    c ∉ oute.header := by
  refine ⟨columnsOf_dropColumns df1 out1 unnecessary_columns hok, ?_, ?_, ?_⟩
  · unfold remove_unnecessary_columns dropColumns
    rw [if_neg]
    intro hcon
    have := List.all_eq_true.mp hcon missing hmiss
    exact hnotin (List.elem_iff.mp this)
  · unfold remove_unnecessary_columns dropColumns
    rw [if_pos]
    · rfl
    · exact List.all_eq_true.mpr (fun x hx => List.elem_iff.mpr (hall x hx))
  · obtain ⟨g, h8, _, rfl⟩ := execute_ok_structure dfe oute hexec
    intro hmem
    have hmem' : c ∈ List.map pyUpperNoSpace h8.header := hmem
    obtain ⟨s, _, hs⟩ := List.mem_map.mp hmem'
    have hall30 : unnecessary_columns.all
        (fun x => x.toList.any (fun ch => decide ('a' ≤ ch ∧ ch ≤ 'z'))) = true := by decide
    have hlow := List.all_eq_true.mp hall30 c hc
    obtain ⟨ch, hch, hchl⟩ := List.any_eq_true.mp hlow
    rw [← hs] at hch
    exact pyUpperNoSpace_not_lower s ch hch (of_decide_eq_true hchl)

/-- C8 witness: the scenario table has every drop label; the id-only table
is missing the url label; the final scenario output contains no listed
name. -/
theorem c8_witness :
    columnsOf C1step4 = (columnsOf C1df).filter (fun col => col.1 ∉ unnecessary_columns) ∧
    remove_unnecessary_columns C8df = Except.error "KeyError: drop labels not found in axis" ∧
    (remove_unnecessary_columns C1df).isOk = true ∧
    "id" ∉ C1out.header :=
  c8_remove_unnecessary C1df C1step4 C8df C1df C1df C1out "id" "url"
    (by rfl) (by decide) (by decide) (by decide) exec_C1df (by decide)

/-! Row-count lemmas for the pipeline steps. -/

theorem rows_selectCols (df : DF) (p : Nat → Bool) :
    (selectCols df p).rows.length = df.rows.length := by
  simp [selectCols]

theorem rows_filter_loan_status (df out : DF) (h : filter_loan_status df = Except.ok out) :
    out.rows.length ≤ df.rows.length := by
  unfold filter_loan_status at h
  split at h
  · exact absurd h (by simp)
  · simp only [Except.ok.injEq] at h
    subst h
    exact List.length_filter_le _ _

theorem rows_dropColumns (df out : DF) (cols : List String)
    (h : dropColumns df cols = Except.ok out) : out.rows.length = df.rows.length := by
  unfold dropColumns at h
  split at h
  · simp only [Except.ok.injEq] at h
    subst h
    exact rows_selectCols _ _
  · exact absurd h (by simp)

theorem rows_assignCol (df : DF) (n : String) (vals : List Cell) :
    (assignCol df n vals).rows.length ≤ df.rows.length := by
  unfold assignCol
  split <;> simp [List.length_zipWith]

theorem rows_map_categorical (df out : DF) (h : map_categorical df MAPPING = Except.ok out) :
    out.rows.length ≤ df.rows.length := by
  unfold map_categorical at h
  split at h
  · simp only [Except.ok.injEq] at h
    subst h
    exact le_trans (rows_assignCol _ _ _) (le_trans (rows_assignCol _ _ _) (rows_assignCol _ _ _))
  · exact absurd h (by simp)

theorem rows_apply_transformations (df out : DF)
    (h : apply_transformations df = Except.ok out) : out.rows.length ≤ df.rows.length := by
  unfold apply_transformations at h
  split at h
  · obtain ⟨termV, _, h⟩ := exceptBind_ok h
    obtain ⟨ruS, _, h⟩ := exceptBind_ok h
    obtain ⟨ruV, _, h⟩ := exceptBind_ok h
    split at h
    · exact absurd h (by simp)
    · have he := rows_dropColumns _ _ _ h
      rw [he]
      exact le_trans (rows_assignCol _ _ _) (le_trans (rows_assignCol _ _ _)
        (le_trans (rows_assignCol _ _ _) (rows_assignCol _ _ _)))
  · exact absurd h (by simp)

theorem rows_handle_outliers (df : DF) :
    (handle_outliers df).rows.length = df.rows.length := by
  simp [handle_outliers]

theorem rows_create_dummies (df out : DF) (h : create_dummies df = Except.ok out) :
    out.rows.length ≤ df.rows.length := by
  unfold create_dummies at h
  split at h
  · exact absurd h (by simp)
  · simp only [Except.ok.injEq] at h
    subst h
    refine le_trans (List.length_filter_le _ _) ?_
    rw [rows_selectCols]
    simp

theorem rows_to_upper (df : DF) : (to_upper df).rows.length = df.rows.length := rfl

theorem rows_execute_processing (df out : DF)
    (h : execute_processing df = Except.ok out) : out.rows.length ≤ df.rows.length := by
  unfold execute_processing at h
  obtain ⟨a, h1, h⟩ := exceptBind_ok h
  obtain ⟨d, h4, h⟩ := exceptBind_ok h
  obtain ⟨e', h5, h⟩ := exceptBind_ok h
  obtain ⟨f', h6, h⟩ := exceptBind_ok h
  obtain ⟨g, h8, h⟩ := exceptBind_ok h
  have hout : Except.ok (to_upper g) = Except.ok out := h
  have hout' : to_upper g = out := by
    injection hout
  subst hout'
  rw [rows_to_upper]
  refine le_trans (rows_create_dummies _ _ h8) ?_
  rw [rows_handle_outliers]
  refine le_trans (rows_apply_transformations _ _ h6) ?_
  refine le_trans (rows_map_categorical _ _ h5) ?_
  have hd := rows_dropColumns _ _ _ h4
  rw [hd]
  unfold filter_non_unique_values filter_missing_data
  rw [rows_selectCols, rows_selectCols]
  exact rows_filter_loan_status _ _ h1

/-- C10: no pipeline step ever adds rows: each of the nine steps returns a
table with at most as many rows as its input, and so does the whole of
execute_processing. -/
theorem c10_rows_nonincreasing (d1 o1 d2 d3 d4 o4 d5 o5 d6 o6 d7 d8 o8 d9 de oe : DF)
    (h1 : filter_loan_status d1 = Except.ok o1)
    (h4 : remove_unnecessary_columns d4 = Except.ok o4)
    (h5 : map_categorical d5 MAPPING = Except.ok o5)
    (h6 : apply_transformations d6 = Except.ok o6)
    (h8 : create_dummies d8 = Except.ok o8)
    (he : execute_processing de = Except.ok oe) :
    o1.rows.length ≤ d1.rows.length ∧
    (filter_missing_data d2).rows.length ≤ d2.rows.length ∧
    (filter_non_unique_values d3).rows.length ≤ d3.rows.length ∧
    o4.rows.length ≤ d4.rows.length ∧
    o5.rows.length ≤ d5.rows.length ∧
    o6.rows.length ≤ d6.rows.length ∧
    (handle_outliers d7).rows.length ≤ d7.rows.length ∧
    o8.rows.length ≤ d8.rows.length ∧
    (to_upper d9).rows.length ≤ d9.rows.length ∧
    oe.rows.length ≤ de.rows.length :=
  ⟨rows_filter_loan_status d1 o1 h1,
   le_of_eq (by rw [filter_missing_data, rows_selectCols]),
   le_of_eq (by rw [filter_non_unique_values, rows_selectCols]),
   le_of_eq (rows_dropColumns d4 o4 unnecessary_columns h4),
   rows_map_categorical d5 o5 h5,
   rows_apply_transformations d6 o6 h6,
   le_of_eq (rows_handle_outliers d7),
   rows_create_dummies d8 o8 h8,
   le_of_eq (rows_to_upper d9),
   rows_execute_processing de oe he⟩

/-- C10 witness: each step instantiated at a concrete table. -/
theorem c10_witness :
    TstatusOut.rows.length ≤ Tstatus.rows.length ∧
    (filter_missing_data C3df).rows.length ≤ C3df.rows.length ∧
    (filter_non_unique_values C7df).rows.length ≤ C7df.rows.length ∧
    C1step4.rows.length ≤ C1df.rows.length ∧
    C5out.rows.length ≤ C5df.rows.length ∧
    TtransOut.rows.length ≤ Ttrans.rows.length ∧
    (handle_outliers C4df).rows.length ≤ C4df.rows.length ∧
    TdumOut.rows.length ≤ Tdum.rows.length ∧
    (to_upper C7df).rows.length ≤ C7df.rows.length ∧
    C1out.rows.length ≤ C1df.rows.length :=
  c10_rows_nonincreasing Tstatus TstatusOut C3df C7df C1df C1step4 C5df C5out Ttrans TtransOut
    C4df Tdum TdumOut C7df C1df C1out
    (by rfl) (by rfl) (by rfl) (by rfl) (by rfl) exec_C1df

/-! Lemmas about column assignment, for the categorical-mapping claim. -/

theorem colIdx_lt_length (df : DF) (n : String) (i : Nat) (h : colIdx df n = some i) :
    i < df.header.length := by
  unfold colIdx at h
  obtain ⟨hlt, -, -⟩ := List.findIdx?_eq_some_iff_getElem.mp h
  exact hlt

theorem colIdx_name (df : DF) (n : String) (i : Nat) (h : colIdx df n = some i) :
    df.header.getD i "" = n := by
  unfold colIdx at h
  obtain ⟨hlt, hp, -⟩ := List.findIdx?_eq_some_iff_getElem.mp h
  rw [List.getD_eq_getElem?_getD, List.getElem?_eq_getElem hlt]
  exact of_decide_eq_true hp

theorem assignCol_present (df : DF) (n : String) (vals : List Cell) (i : Nat)
    (hi : colIdx df n = some i) :
    (assignCol df n vals).header = df.header ∧
    (assignCol df n vals).rows = df.rows.zipWith (fun r v => r.set i v) vals := by
  unfold assignCol
  rw [hi]
  exact ⟨rfl, rfl⟩

theorem colIdx_assignCol (df : DF) (n m : String) (vals : List Cell) (i : Nat)
    (hi : colIdx df n = some i) :
    colIdx (assignCol df n vals) m = colIdx df m := by
  unfold colIdx
  rw [(assignCol_present df n vals i hi).1]

theorem WF_assignCol (df : DF) (n : String) (vals : List Cell) (i : Nat)
    (hi : colIdx df n = some i) (hw : df.WF) : (assignCol df n vals).WF := by
  obtain ⟨hh, hr⟩ := assignCol_present df n vals i hi
  intro r hmem
  rw [hh]
  rw [hr] at hmem
  obtain ⟨k, hk, rfl⟩ := List.mem_iff_getElem.mp hmem
  rw [List.getElem_zipWith, List.length_set]
  exact hw _ (List.getElem_mem _)

theorem rows_length_assignCol (df : DF) (n : String) (vals : List Cell) (i : Nat)
    (hi : colIdx df n = some i) (hlen : vals.length = df.rows.length) :
    (assignCol df n vals).rows.length = df.rows.length := by
  rw [(assignCol_present df n vals i hi).2, List.length_zipWith, hlen, Nat.min_self]

theorem getCol_assignCol_self (df : DF) (n : String) (vals : List Cell) (i : Nat)
    (hw : df.WF) (hlen : vals.length = df.rows.length) (hi : colIdx df n = some i) :
    getCol (assignCol df n vals) n = some vals := by
  obtain ⟨hh, hr⟩ := assignCol_present df n vals i hi
  unfold getCol
  rw [colIdx_assignCol df n n vals i hi, hi, Option.map_some']
  congr 1
  unfold colAt
  rw [hr]
  apply List.ext_getElem
  · rw [List.length_map, List.length_zipWith, hlen, Nat.min_self]
  · intro k hk1 hk2
    rw [List.getElem_map, List.getElem_zipWith]
    unfold cellAt
    have hkr : k < df.rows.length := by
      rw [List.length_map, List.length_zipWith, hlen, Nat.min_self] at hk1
      exact hk1
    have hilt : i < (df.rows[k]).length := by
      rw [hw _ (List.getElem_mem hkr)]
      exact colIdx_lt_length df n i hi
    rw [List.getElem?_set_self hilt]
    rfl

theorem getCol_assignCol_other (df : DF) (n m : String) (vals : List Cell) (i : Nat)
    (hlen : vals.length = df.rows.length) (hi : colIdx df n = some i) (hne : m ≠ n) :
    getCol (assignCol df n vals) m = getCol df m := by
  obtain ⟨hh, hr⟩ := assignCol_present df n vals i hi
  unfold getCol
  rw [colIdx_assignCol df n m vals i hi]
  cases hj : colIdx df m with
  | none => rfl
  | some j =>
    simp only [Option.map_some']
    congr 1
    have hji : j ≠ i := by
      intro hcon
      apply hne
      rw [← colIdx_name df m j hj, ← colIdx_name df n i hi, hcon]
    unfold colAt
    rw [hr]
    apply List.ext_getElem
    · rw [List.length_map, List.length_map, List.length_zipWith, hlen, Nat.min_self]
    · intro k hk1 hk2
      rw [List.getElem_map, List.getElem_map, List.getElem_zipWith]
      unfold cellAt
      rw [List.getElem?_set_ne (fun hcon => hji hcon.symm)]

theorem getCol_inv (df : DF) (n : String) (dat : List Cell) (h : getCol df n = some dat) :
    ∃ i, colIdx df n = some i ∧ dat = colAt df i ∧ dat.length = df.rows.length := by
  unfold getCol at h
  cases hi : colIdx df n with
  | none => rw [hi] at h; exact absurd h (by simp)
  | some i =>
    rw [hi, Option.map_some', Option.some.injEq] at h
    subst h
    refine ⟨i, rfl, rfl, ?_⟩
    unfold colAt
    exact List.length_map _ _

theorem lookupCell_not_mem (c : Cell) :
    ∀ (m : List (Cell × ℚ)), c ∉ m.map Prod.fst → lookupCell c m = none
  | [], _ => rfl
  | (k, v) :: rest, hc => by
    rw [lookupCell, if_neg, lookupCell_not_mem c rest (fun hmem => hc (by simp [hmem]))]
    intro hcon
    exact hc (by rw [hcon]; simp)

theorem mapCellVia_not_mem (c : Cell) (m : List (Cell × ℚ)) (hc : c ∉ m.map Prod.fst) :
    mapCellVia m c = Cell.na := by
  unfold mapCellVia
  rw [lookupCell_not_mem c m hc]

/-- C5: map_categorical replaces the three columns by their elementwise
images under the lookup tables: grades A-G become 1-7, the outcome labels
become 0 and 1, the employment lengths become 0-10 with a missing
employment length mapped to 0, and any value absent from its lookup table
becomes a missing value instead of raising. -/
theorem c5_map_categorical (df out : DF) (g e l : List Cell) (s : String)
    (hw : df.WF)
    (hg : getCol df "grade" = some g)
    (he : getCol df "emp_length" = some e)
    (hl : getCol df "loan_status" = some l)
    (hm : map_categorical df MAPPING = Except.ok out)
    (hs1 : Cell.str s ∉ MAPPING.grade_map.map Prod.fst)
    (hs2 : Cell.str s ∉ MAPPING.emp_length_map.map Prod.fst)
    (hs3 : Cell.str s ∉ MAPPING.loan_status_map.map Prod.fst) :
    getCol out "grade" = some (g.map (mapCellVia MAPPING.grade_map)) ∧
    getCol out "emp_length" = some (e.map (mapCellVia MAPPING.emp_length_map)) ∧
    getCol out "loan_status" = some (l.map (mapCellVia MAPPING.loan_status_map)) ∧
    (mapCellVia MAPPING.grade_map (Cell.str "A") = Cell.num 1 ∧
     mapCellVia MAPPING.grade_map (Cell.str "B") = Cell.num 2 ∧
     mapCellVia MAPPING.grade_map (Cell.str "C") = Cell.num 3 ∧
     mapCellVia MAPPING.grade_map (Cell.str "D") = Cell.num 4 ∧
     mapCellVia MAPPING.grade_map (Cell.str "E") = Cell.num 5 ∧
     mapCellVia MAPPING.grade_map (Cell.str "F") = Cell.num 6 ∧
     mapCellVia MAPPING.grade_map (Cell.str "G") = Cell.num 7) ∧
    (mapCellVia MAPPING.loan_status_map (Cell.str "Fully Paid") = Cell.num 0 ∧
     mapCellVia MAPPING.loan_status_map (Cell.str "Charged Off") = Cell.num 1) ∧
    (mapCellVia MAPPING.emp_length_map (Cell.str "< 1 year") = Cell.num 0 ∧
     mapCellVia MAPPING.emp_length_map (Cell.str "1 year") = Cell.num 1 ∧
     mapCellVia MAPPING.emp_length_map (Cell.str "2 years") = Cell.num 2 ∧
     mapCellVia MAPPING.emp_length_map (Cell.str "3 years") = Cell.num 3 ∧
     mapCellVia MAPPING.emp_length_map (Cell.str "4 years") = Cell.num 4 ∧
     mapCellVia MAPPING.emp_length_map (Cell.str "5 years") = Cell.num 5 ∧
     mapCellVia MAPPING.emp_length_map (Cell.str "6 years") = Cell.num 6 ∧
     mapCellVia MAPPING.emp_length_map (Cell.str "7 years") = Cell.num 7 ∧
     mapCellVia MAPPING.emp_length_map (Cell.str "8 years") = Cell.num 8 ∧
     mapCellVia MAPPING.emp_length_map (Cell.str "9 years") = Cell.num 9 ∧
     mapCellVia MAPPING.emp_length_map (Cell.str "10+ years") = Cell.num 10 ∧
     mapCellVia MAPPING.emp_length_map Cell.na = Cell.num 0) ∧
    (mapCellVia MAPPING.grade_map (Cell.str s) = Cell.na ∧
     mapCellVia MAPPING.emp_length_map (Cell.str s) = Cell.na ∧
     mapCellVia MAPPING.loan_status_map (Cell.str s) = Cell.na ∧
     mapCellVia MAPPING.grade_map Cell.na = Cell.na ∧
     mapCellVia MAPPING.loan_status_map Cell.na = Cell.na) := by
  obtain ⟨ig, hig, -, hglen⟩ := getCol_inv df "grade" g hg
  obtain ⟨ie, hie, -, helen⟩ := getCol_inv df "emp_length" e he
  obtain ⟨il, hil, -, hllen⟩ := getCol_inv df "loan_status" l hl
  unfold map_categorical at hm
  rw [hg, he, hl] at hm
  simp only [Except.ok.injEq] at hm
  subst hm
  have hgvlen : (g.map (mapCellVia MAPPING.grade_map)).length = df.rows.length := by
    rw [List.length_map]; exact hglen
  have hA1wf := WF_assignCol df "grade" (g.map (mapCellVia MAPPING.grade_map)) ig hig hw
  have hA1rows := rows_length_assignCol df "grade" (g.map (mapCellVia MAPPING.grade_map))
    ig hig hgvlen
  have hA1ie : colIdx (assignCol df "grade" (g.map (mapCellVia MAPPING.grade_map)))
      "emp_length" = some ie := by
    rw [colIdx_assignCol df "grade" "emp_length" _ ig hig]; exact hie
  have hA1il : colIdx (assignCol df "grade" (g.map (mapCellVia MAPPING.grade_map)))
      "loan_status" = some il := by
    rw [colIdx_assignCol df "grade" "loan_status" _ ig hig]; exact hil
  have hA1ig : colIdx (assignCol df "grade" (g.map (mapCellVia MAPPING.grade_map)))
      "grade" = some ig := by
    rw [colIdx_assignCol df "grade" "grade" _ ig hig]; exact hig
  have hevlen : (e.map (mapCellVia MAPPING.emp_length_map)).length =
      (assignCol df "grade" (g.map (mapCellVia MAPPING.grade_map))).rows.length := by
    rw [List.length_map, hA1rows]; exact helen
  have hA2wf := WF_assignCol (assignCol df "grade" (g.map (mapCellVia MAPPING.grade_map)))
    "emp_length" (e.map (mapCellVia MAPPING.emp_length_map)) ie hA1ie hA1wf
  have hA2rows := rows_length_assignCol
    (assignCol df "grade" (g.map (mapCellVia MAPPING.grade_map)))
    "emp_length" (e.map (mapCellVia MAPPING.emp_length_map)) ie hA1ie hevlen
  have hA2il : colIdx (assignCol (assignCol df "grade" (g.map (mapCellVia MAPPING.grade_map)))
      "emp_length" (e.map (mapCellVia MAPPING.emp_length_map))) "loan_status" = some il := by
    rw [colIdx_assignCol _ "emp_length" "loan_status" _ ie hA1ie]; exact hA1il
  have hA2ig : colIdx (assignCol (assignCol df "grade" (g.map (mapCellVia MAPPING.grade_map)))
      "emp_length" (e.map (mapCellVia MAPPING.emp_length_map))) "grade" = some ig := by
    rw [colIdx_assignCol _ "emp_length" "grade" _ ie hA1ie]; exact hA1ig
  have hlvlen : (l.map (mapCellVia MAPPING.loan_status_map)).length =
      (assignCol (assignCol df "grade" (g.map (mapCellVia MAPPING.grade_map)))
        "emp_length" (e.map (mapCellVia MAPPING.emp_length_map))).rows.length := by
    rw [List.length_map, hA2rows, hA1rows]; exact hllen
  refine ⟨?_, ?_, ?_, by decide, by decide, by decide,
    mapCellVia_not_mem _ _ hs1, mapCellVia_not_mem _ _ hs2, mapCellVia_not_mem _ _ hs3,
    by decide, by decide⟩
  · rw [getCol_assignCol_other _ "loan_status" "grade" _ il hlvlen hA2il (by decide)]
    rw [getCol_assignCol_other _ "emp_length" "grade" _ ie hevlen hA1ie (by decide)]
    exact getCol_assignCol_self df "grade" _ ig hw hgvlen hig
  · rw [getCol_assignCol_other _ "loan_status" "emp_length" _ il hlvlen hA2il (by decide)]
    exact getCol_assignCol_self _ "emp_length" _ ie hA1wf hevlen hA1ie
  · exact getCol_assignCol_self _ "loan_status" _ il hA2wf hlvlen hA2il

/-- C5 witness: the mapping step evaluated at a concrete two-row table
with an unmapped employment value and an all-missing row, and the unmapped
probe value X. -/
theorem c5_witness :
    getCol C5out "grade" =
      some ([Cell.str "B", Cell.na].map (mapCellVia MAPPING.grade_map)) ∧
    getCol C5out "emp_length" =
      some ([Cell.str "Z", Cell.na].map (mapCellVia MAPPING.emp_length_map)) ∧
    getCol C5out "loan_status" =
      some ([Cell.str "Fully Paid", Cell.na].map (mapCellVia MAPPING.loan_status_map)) ∧
    (mapCellVia MAPPING.grade_map (Cell.str "A") = Cell.num 1 ∧
     mapCellVia MAPPING.grade_map (Cell.str "B") = Cell.num 2 ∧
     mapCellVia MAPPING.grade_map (Cell.str "C") = Cell.num 3 ∧
     mapCellVia MAPPING.grade_map (Cell.str "D") = Cell.num 4 ∧
     mapCellVia MAPPING.grade_map (Cell.str "E") = Cell.num 5 ∧
     mapCellVia MAPPING.grade_map (Cell.str "F") = Cell.num 6 ∧
     mapCellVia MAPPING.grade_map (Cell.str "G") = Cell.num 7) ∧
    (mapCellVia MAPPING.loan_status_map (Cell.str "Fully Paid") = Cell.num 0 ∧
     mapCellVia MAPPING.loan_status_map (Cell.str "Charged Off") = Cell.num 1) ∧
    (mapCellVia MAPPING.emp_length_map (Cell.str "< 1 year") = Cell.num 0 ∧
     mapCellVia MAPPING.emp_length_map (Cell.str "1 year") = Cell.num 1 ∧
     mapCellVia MAPPING.emp_length_map (Cell.str "2 years") = Cell.num 2 ∧
     mapCellVia MAPPING.emp_length_map (Cell.str "3 years") = Cell.num 3 ∧
     mapCellVia MAPPING.emp_length_map (Cell.str "4 years") = Cell.num 4 ∧
     mapCellVia MAPPING.emp_length_map (Cell.str "5 years") = Cell.num 5 ∧
     mapCellVia MAPPING.emp_length_map (Cell.str "6 years") = Cell.num 6 ∧
     mapCellVia MAPPING.emp_length_map (Cell.str "7 years") = Cell.num 7 ∧
     mapCellVia MAPPING.emp_length_map (Cell.str "8 years") = Cell.num 8 ∧
     mapCellVia MAPPING.emp_length_map (Cell.str "9 years") = Cell.num 9 ∧
     mapCellVia MAPPING.emp_length_map (Cell.str "10+ years") = Cell.num 10 ∧
     mapCellVia MAPPING.emp_length_map Cell.na = Cell.num 0) ∧
    (mapCellVia MAPPING.grade_map (Cell.str "X") = Cell.na ∧
     mapCellVia MAPPING.emp_length_map (Cell.str "X") = Cell.na ∧
     mapCellVia MAPPING.loan_status_map (Cell.str "X") = Cell.na ∧
     mapCellVia MAPPING.grade_map Cell.na = Cell.na ∧
     mapCellVia MAPPING.loan_status_map Cell.na = Cell.na) :=
  c5_map_categorical C5df C5out [Cell.str "B", Cell.na] [Cell.str "Z", Cell.na]
    [Cell.str "Fully Paid", Cell.na] "X" (by decide) rfl rfl rfl (by rfl)
    (by decide) (by decide) (by decide)

/-! Quantile and clipping lemmas for the outlier claim. -/

theorem srt_sorted (l : List ℚ) : List.Sorted (fun a b => a ≤ b) (srt l) :=
  List.sorted_insertionSort _ l

theorem srt_length (l : List ℚ) : (srt l).length = l.length :=
  (List.perm_insertionSort _ l).length_eq

theorem nthClamp_mono (xs : List ℚ) (hs : List.Sorted (fun a b => a ≤ b) xs)
    (hne : 0 < xs.length) (i j : Nat) (hij : i ≤ j) : nthClamp xs i ≤ nthClamp xs j := by
  unfold nthClamp
  have ha : min i (xs.length - 1) < xs.length := by omega
  have hb : min j (xs.length - 1) < xs.length := by omega
  rw [List.getD_eq_getElem?_getD, List.getElem?_eq_getElem ha,
      List.getD_eq_getElem?_getD, List.getElem?_eq_getElem hb]
  simp only [Option.getD_some]
  have hle := hs.rel_get_of_le (a := ⟨min i (xs.length - 1), ha⟩)
    (b := ⟨min j (xs.length - 1), hb⟩) (by simp [Fin.le_def]; omega)
  simpa [List.get_eq_getElem] using hle

theorem floor_toNat_cast (hq : ℚ) (h : 0 ≤ hq) :
    ((Int.floor hq).toNat : ℚ) = ((Int.floor hq : ℤ) : ℚ) := by
  have h0 : (0 : ℤ) ≤ Int.floor hq := Int.floor_nonneg.mpr h
  rw [← Int.cast_natCast, Int.toNat_of_nonneg h0]

theorem interp_frac_bounds (hq : ℚ) (h : 0 ≤ hq) :
    0 ≤ hq - ((Int.floor hq).toNat : ℚ) ∧ hq - ((Int.floor hq).toNat : ℚ) ≤ 1 := by
  rw [floor_toNat_cast hq h]
  constructor
  · have := Int.floor_le hq
    linarith
  · have := Int.lt_floor_add_one hq
    push_cast at this ⊢
    linarith

theorem interp_ge (xs : List ℚ) (hs : List.Sorted (fun a b => a ≤ b) xs)
    (hne : 0 < xs.length) (hq : ℚ) (h0 : 0 ≤ hq) :
    nthClamp xs ((Int.floor hq).toNat) ≤ interp xs hq := by
  obtain ⟨hf0, -⟩ := interp_frac_bounds hq h0
  have hd : nthClamp xs ((Int.floor hq).toNat) ≤ nthClamp xs ((Int.floor hq).toNat + 1) :=
    nthClamp_mono xs hs hne _ _ (Nat.le_succ _)
  unfold interp
  nlinarith [mul_nonneg hf0 (sub_nonneg.mpr hd)]

theorem interp_le_next (xs : List ℚ) (hs : List.Sorted (fun a b => a ≤ b) xs)
    (hne : 0 < xs.length) (hq : ℚ) (h0 : 0 ≤ hq) :
    interp xs hq ≤ nthClamp xs ((Int.floor hq).toNat + 1) := by
  obtain ⟨hf0, hf1⟩ := interp_frac_bounds hq h0
  have hd : nthClamp xs ((Int.floor hq).toNat) ≤ nthClamp xs ((Int.floor hq).toNat + 1) :=
    nthClamp_mono xs hs hne _ _ (Nat.le_succ _)
  have hmul := mul_le_of_le_one_left (sub_nonneg.mpr hd) hf1
  unfold interp
  nlinarith [hmul]

theorem interp_mono (xs : List ℚ) (hs : List.Sorted (fun a b => a ≤ b) xs)
    (hne : 0 < xs.length) (h1 h2 : ℚ) (h0 : 0 ≤ h1) (h12 : h1 ≤ h2) :
    interp xs h1 ≤ interp xs h2 := by
  have hfl : Int.floor h1 ≤ Int.floor h2 := Int.floor_mono h12
  have hi12 : (Int.floor h1).toNat ≤ (Int.floor h2).toNat := Int.toNat_le_toNat hfl
  rcases Nat.lt_or_ge ((Int.floor h1).toNat) ((Int.floor h2).toNat) with hlt | hge
  · calc interp xs h1 ≤ nthClamp xs ((Int.floor h1).toNat + 1) :=
          interp_le_next xs hs hne h1 h0
      _ ≤ nthClamp xs ((Int.floor h2).toNat) := nthClamp_mono xs hs hne _ _ (by omega)
      _ ≤ interp xs h2 := interp_ge xs hs hne h2 (le_trans h0 h12)
  · have heq : (Int.floor h2).toNat = (Int.floor h1).toNat := le_antisymm hge hi12
    unfold interp
    rw [heq]
    have hd : nthClamp xs ((Int.floor h1).toNat) ≤ nthClamp xs ((Int.floor h1).toNat + 1) :=
      nthClamp_mono xs hs hne _ _ (Nat.le_succ _)
    have hff : h1 - ((Int.floor h1).toNat : ℚ) ≤ h2 - ((Int.floor h1).toNat : ℚ) := by linarith
    nlinarith [mul_le_mul_of_nonneg_right hff (sub_nonneg.mpr hd)]

theorem quantile_mono (l : List ℚ) (p1 p2 a b : ℚ) (h0 : 0 ≤ p1) (h12 : p1 ≤ p2)
    (ha : quantile l p1 = some a) (hb : quantile l p2 = some b) : a ≤ b := by
  unfold quantile at ha hb
  split at ha
  · exact absurd ha (by simp)
  · rename_i hlen
    split at hb
    · exact absurd hb (by simp)
    · simp only [Option.some.injEq] at ha hb
      subst ha
      subst hb
      apply interp_mono _ (srt_sorted l) (by omega)
      · exact mul_nonneg h0 (Nat.cast_nonneg _)
      · exact mul_le_mul_of_nonneg_right h12 (Nat.cast_nonneg _)

theorem applyClip_bounds (lo hi x : ℚ) (hlohi : lo ≤ hi) :
    lo ≤ applyClip (some lo, some hi) x ∧ applyClip (some lo, some hi) x ≤ hi := by
  unfold applyClip
  exact ⟨le_min (le_max_right x lo) hlohi, min_le_right _ _⟩

theorem clipCell_none (c : Cell) : clipCell (none, none) c = c := by
  cases c <;> rfl

theorem clipRow_getElem (bs : List (Option ℚ × Option ℚ)) :
    ∀ (r : List Cell) (i : Nat),
      (clipRow bs r)[i]? = (r[i]?).map (clipCell ((bs[i]?).getD (none, none))) := by
  induction bs with
  | nil =>
    intro r i
    cases r with
    | nil => rfl
    | cons c cs =>
      show (c :: cs)[i]? = ((c :: cs)[i]?).map (clipCell (none, none))
      cases hg : (c :: cs)[i]? with
      | none => rfl
      | some x => simp [clipCell_none]
  | cons b bs ih =>
    intro r i
    cases r with
    | nil => rfl
    | cons c cs =>
      cases i with
      | zero => simp [clipRow]
      | succ i => simp [clipRow, ih cs i]

theorem colAt_handle_outliers (df : DF) (i : Nat) :
    colAt (handle_outliers df) i =
      (colAt df i).map (clipCell (((outlierBounds df)[i]?).getD (none, none))) := by
  unfold colAt handle_outliers
  simp only [List.map_map]
  apply List.map_congr_left
  intro r _
  simp only [Function.comp_apply]
  unfold cellAt
  rw [clipRow_getElem]
  cases r[i]? with
  | none =>
    simp only [Option.map_none', Option.getD_none]
    cases ((outlierBounds df)[i]?).getD (none, none) with
    | mk lo hi => cases lo <;> cases hi <;> rfl
  | some c => rfl

theorem outlierBounds_at (df : DF) (i : Nat) (hi : i < df.header.length)
    (hnum : isNumericCol (colAt df i) = true) :
    (outlierBounds df)[i]? =
      some (quantile (numData (colAt df i)) (1 / 20), quantile (numData (colAt df i)) (19 / 20)) := by
  unfold outlierBounds
  rw [List.getElem?_map, List.getElem?_range hi]
  simp only [Option.map_some']
  rw [if_pos hnum]

/-- C4: after handle_outliers every numeric-dtype column's non-missing
values lie within that column's own 5th-95th percentile bounds computed on
the column's pre-clip data, each column clipped independently. -/
theorem c4_outlier_bounds (df : DF) (name : String) (dat out : List Cell)
    (lo hi : ℚ) (c : Cell) (q : ℚ)
    (hg : getCol df name = some dat)
    (hnum : isNumericCol dat = true)
    (hlo : quantile (numData dat) (1 / 20) = some lo)
    (hhi : quantile (numData dat) (19 / 20) = some hi)
    (hout : getCol (handle_outliers df) name = some out)
    (hc : c ∈ out) (hq : c = Cell.num q) :
    lo ≤ q ∧ q ≤ hi := by
  obtain ⟨i, hi1, hdat, -⟩ := getCol_inv df name dat hg
  have hlohi : lo ≤ hi := quantile_mono (numData dat) (1 / 20) (19 / 20) lo hi
    (by norm_num) (by norm_num) hlo hhi
  obtain ⟨i2, hi2, houtdat, -⟩ := getCol_inv (handle_outliers df) name out hout
  have hidx : colIdx (handle_outliers df) name = some i := hi1
  rw [hidx, Option.some.injEq] at hi2
  subst hi2
  rw [colAt_handle_outliers df i] at houtdat
  have hb : ((outlierBounds df)[i]?).getD (none, none) = (some lo, some hi) := by
    rw [outlierBounds_at df i (colIdx_lt_length df name i hi1) (hdat ▸ hnum)]
    rw [← hdat, hlo, hhi]
    rfl
  rw [hb] at houtdat
  rw [houtdat] at hc
  obtain ⟨c0, hc0, hclip⟩ := List.mem_map.mp hc
  have hc0dat : c0 ∈ dat := hdat ▸ hc0
  cases c0 with
  | na => rw [hq] at hclip; exact absurd hclip (by simp [clipCell])
  | str s =>
    have hall : ∀ x ∈ dat, (!isStrCell x) = true := List.all_eq_true.mp hnum
    have := hall (Cell.str s) hc0dat
    simp [isStrCell] at this
  | num x =>
    rw [hq] at hclip
    have hx : applyClip (some lo, some hi) x = q := by
      simpa [clipCell] using hclip
    rw [← hx]
    exact applyClip_bounds lo hi x hlohi

/-- C4 witness: the column [0, 10, 100] has quantile bounds 1 and 91, and
the surviving cell 10 of the clipped column lies between them. -/
theorem c4_witness : (1 : ℚ) ≤ 10 ∧ (10 : ℚ) ≤ 91 :=
  c4_outlier_bounds C4df "x" [Cell.num 0, Cell.num 10, Cell.num 100]
    [Cell.num 1, Cell.num 10, Cell.num 91] 1 91 (Cell.num 10) 10
    rfl rfl (by rfl) (by rfl) (by rfl) (by decide) rfl

/-! Frame lemmas for the mutation model. -/

theorem callPure_preserves (f : DF → Except String DF) (r : Nat) (σ : Store)
    (p : Nat × Store) (h : callPure f r σ = Except.ok p) : p.2[r]? = σ[r]? := by
  unfold callPure at h
  split at h
  · exact absurd h (by simp)
  · rename_i df heq
    cases hf : f df with
    | error e => rw [hf] at h; exact absurd h (by simp [Except.map])
    | ok out =>
      rw [hf] at h
      simp only [Except.map, Except.ok.injEq] at h
      subst h
      have hr : r < σ.length := by
        cases hlt : Nat.decLt r σ.length with
        | isTrue hl => exact hl
        | isFalse hl =>
          rw [List.getElem?_eq_none (Nat.le_of_not_lt hl)] at heq
          exact absurd heq (by simp)
      exact List.getElem?_append_left hr

theorem callInPlace_spec (f : DF → DF) (r : Nat) (σ : Store) (p : Nat × Store)
    (h : callInPlace f r σ = Except.ok p) :
    p.1 = r ∧ p.2 = List.set σ r (f ((σ[r]?).getD { header := [], rows := [] })) := by
  unfold callInPlace at h
  split at h
  · exact absurd h (by simp)
  · rename_i df heq
    simp only [Except.ok.injEq] at h
    subst h
    rw [heq]
    exact ⟨rfl, rfl⟩

/-- C6 amended: the steps that build a fresh frame (slicing, column
selection, drop, assign chains, concat/dropna) leave the caller's table in
the store untouched, but handle_outliers and to_upper write their result
into the very table they were given (loans[feature] = ... and
loans.columns = ... mutate in place) and return that same reference. -/
theorem c6_step_purity (r1 r2 r3 r4 r5 r6 r7 r8 r9 : Nat)
    (s1 s2 s3 s4 s5 s6 s7 s8 s9 : Store)
    (p1 p2 p3 p4 p5 p6 p7 p8 p9 : Nat × Store)
    (h1 : filter_loan_status_call r1 s1 = Except.ok p1)
    (h2 : filter_missing_data_call r2 s2 = Except.ok p2)
    (h3 : filter_non_unique_values_call r3 s3 = Except.ok p3)
    (h4 : remove_unnecessary_columns_call r4 s4 = Except.ok p4)
    (h5 : map_categorical_call r5 s5 = Except.ok p5)
    (h6 : apply_transformations_call r6 s6 = Except.ok p6)
    (h7 : create_dummies_call r7 s7 = Except.ok p7)
    (h8 : handle_outliers_call r8 s8 = Except.ok p8)
    (h9 : to_upper_call r9 s9 = Except.ok p9) :
    p1.2[r1]? = s1[r1]? ∧ p2.2[r2]? = s2[r2]? ∧ p3.2[r3]? = s3[r3]? ∧
    p4.2[r4]? = s4[r4]? ∧ p5.2[r5]? = s5[r5]? ∧ p6.2[r6]? = s6[r6]? ∧
    p7.2[r7]? = s7[r7]? ∧
    (p8.1 = r8 ∧
     p8.2 = List.set s8 r8 (handle_outliers ((s8[r8]?).getD { header := [], rows := [] }))) ∧
    (p9.1 = r9 ∧
     p9.2 = List.set s9 r9 (to_upper ((s9[r9]?).getD { header := [], rows := [] }))) :=
  ⟨callPure_preserves _ r1 s1 p1 h1, callPure_preserves _ r2 s2 p2 h2,
   callPure_preserves _ r3 s3 p3 h3, callPure_preserves _ r4 s4 p4 h4,
   callPure_preserves _ r5 s5 p5 h5, callPure_preserves _ r6 s6 p6 h6,
   callPure_preserves _ r7 s7 p7 h7,
   callInPlace_spec handle_outliers r8 s8 p8 h8,
   callInPlace_spec to_upper r9 s9 p9 h9⟩

/-- C6 witness: the nine steps called on concrete one-table stores. -/
theorem c6_witness :
    [Tstatus, TstatusOut][0]? = [Tstatus][0]? ∧
    [C3df, filter_missing_data C3df][0]? = [C3df][0]? ∧
    [C7df, C7out][0]? = [C7df][0]? ∧
    [C1df, C1step4][0]? = [C1df][0]? ∧
    [C5df, C5out][0]? = [C5df][0]? ∧
    [Ttrans, TtransOut][0]? = [Ttrans][0]? ∧
    [Tdum, TdumOut][0]? = [Tdum][0]? ∧
    ((0 : Nat) = 0 ∧
     [C4clip] = List.set [C4df] 0
       (handle_outliers (([C4df][0]?).getD { header := [], rows := [] }))) ∧
    ((0 : Nat) = 0 ∧
     [C6up] = List.set [C6df] 0
       (to_upper (([C6df][0]?).getD { header := [], rows := [] }))) :=
  c6_step_purity 0 0 0 0 0 0 0 0 0
    [Tstatus] [C3df] [C7df] [C1df] [C5df] [Ttrans] [Tdum] [C4df] [C6df]
    (1, [Tstatus, TstatusOut]) (1, [C3df, filter_missing_data C3df]) (1, [C7df, C7out])
    (1, [C1df, C1step4]) (1, [C5df, C5out]) (1, [Ttrans, TtransOut]) (1, [Tdum, TdumOut])
    (0, [C4clip]) (0, [C6up])
    (by rfl) (by rfl) (by rfl) (by rfl) (by rfl) (by rfl) (by rfl) (by rfl) (by rfl)

/-- C6: handle_outliers and to_upper are not pure: calling them on a
stored table overwrites the caller's entry with the transformed table
(here C4df becomes its clipped version and C6df gets the renamed header),
so not every cleaning step leaves the table it was given unmodified. -/
theorem c6_counterexample :
    to_upper_call 0 [C6df] = Except.ok (0, [C6up]) ∧ C6up ≠ C6df ∧
    handle_outliers_call 0 [C4df] = Except.ok (0, [C4clip]) ∧ C4clip ≠ C4df := by
  refine ⟨by rfl, by decide, by rfl, by decide⟩

end LendingClub
